import Mathlib

/-!
Shallow embedding of the strike-nwc-service request pipeline.

The embedding models the main module (the NWC request listener) together
with the interface of the Strike provider client (src/strike.js).  JS
numbers are modelled as rationals, JS exceptions as `Except String`
(the string being the `err.message` read by the pipeline), and the
external collaborators (NIP-04 crypto, bolt11 decoder, Strike HTTP
client) as oracle structures of functions.
-/

/-- JS value for the `method` field: `undefined`, `null`, or a string. -/
inductive JStr where
  | undef
  | null
  | str (s : String)
deriving DecidableEq, Repr

/-- JS truthiness of an optional string (`undefined`/`null`/empty string are falsy). -/
def strTruthy : Option String → Bool
  | none => false
  | some s => !(s == "")

/-- JS property-key coercion: an `undefined` key reads as the string "undefined". -/
def jsKey : Option String → String
  | none => "undefined"
  | some s => s

/-- JS `x || d` for an optional numeric value: absent or falsy (zero) picks the default. -/
def jsOr (v : Option ℚ) (d : ℚ) : ℚ :=
  match v with
  | none => d
  | some x => if x = 0 then d else x

/-- Decrypted NWC request `params` object (all fields may be absent). -/
structure Params where
  invoice : Option String := none
  amount : Option ℚ := none
  description : Option String := none
  currency : Option String := none
  limit : Option ℚ := none
  offset : Option ℚ := none
deriving DecidableEq, Repr

/-- Decrypted NWC request content: `{ method, params }`. -/
structure NwcRequestContent where
  method : JStr
  params : Option Params
deriving DecidableEq, Repr

/-- `metadata` sub-object of a cached invoice result. -/
structure InvoiceMetadata where
  state : String
  invoice_id : String
deriving DecidableEq, Repr

/-- Cached invoice result built by `handleMakeInvoiceRequest`. -/
structure InvoiceRecord where
  type : String
  invoice : String
  description : Option String
  amount : Option ℚ
  created_at : ℤ
  expires_at : ℤ
  metadata : InvoiceMetadata
deriving DecidableEq, Repr

/-- Success payload of a handler (`result` of the NWC response). -/
inductive ResultPayload where
  | payInvoiceResult (preimage : String)
  | invoiceRecord (r : InvoiceRecord)
  | rawData (d : String)
deriving DecidableEq, Repr

/-- Data returned by the provider `makeInvoice` capability (src/strike.js). -/
structure MakeInvoiceData where
  invoiceId : String
  invoice : String
  state : String
  createdAt : ℤ
  expiresAt : ℤ
deriving DecidableEq, Repr

/-- Record of one call made to the Strike provider capability. -/
inductive ProviderCall where
  | payInvoice (invoice : Option String)
  | makeInvoice (amountInMillisats : Option ℚ) (description : Option String)
  | lookupInvoice (invoiceId : String)
  | getExchangeRates (currency : String)
  | getAccountDetails
  | getBalance
  | getTransactions (limit : ℚ) (offset : ℚ)
deriving DecidableEq, Repr

/-- Oracle for the Strike provider client (src/strike.js): each operation
either returns data or fails (HTTP error / rejection). -/
structure Provider where
  payInvoice : Option String → Except Unit Unit
  makeInvoice : Option ℚ → Option String → Except Unit MakeInvoiceData
  lookupInvoice : String → Except Unit String
  getExchangeRates : String → Except Unit String
  getAccountDetails : Except Unit String
  getBalance : Except Unit String
  getTransactions : ℚ → ℚ → Except Unit String

/-- Oracle for the bolt11 decoder used by `extractAmountInSats`: `ok a` means
the invoice decodes with embedded amount `a` sats; `error m` means the
extraction throws a raw exception with message `m`. -/
structure Bolt11 where
  amountSats : String → Except String ℚ

/-- Configuration constants consumed by the pipeline. -/
structure Config where
  TOTAL_MAX_SEND_AMOUNT_IN_SATS : ℚ
  NWC_CONNECTION_PUBKEY : String
  AUTHORIZED_PUBKEY : String
deriving DecidableEq, Repr

-- Error code constants of the closed taxonomy.
def UNAUTHORIZED : String := "UNAUTHORIZED"
def NOT_IMPLEMENTED : String := "NOT_IMPLEMENTED"
def QUOTA_EXCEEDED : String := "QUOTA_EXCEEDED"
def PAYMENT_FAILED : String := "PAYMENT_FAILED"
def INTERNAL : String := "INTERNAL"
def NOT_FOUND : String := "NOT_FOUND"
def INVALID_PARAMS : String := "INVALID_PARAMS"

/-- The seven error codes of the closed taxonomy (spec section 7). -/
def errorTaxonomy : List String :=
  [UNAUTHORIZED, NOT_IMPLEMENTED, QUOTA_EXCEEDED, PAYMENT_FAILED, NOT_FOUND,
   INVALID_PARAMS, INTERNAL]

/-- Message of the TypeError thrown when `make_invoice` destructures absent params. -/
def destructureAmountMsg : String :=
  "Cannot destructure property amount of nwcRequestContent.params as it is undefined."

/-- Message of the TypeError thrown when `lookup_invoice` destructures absent params. -/
def destructureInvoiceMsg : String :=
  "Cannot destructure property invoice of nwcRequestContent.params as it is undefined."

/-- The invoice cache, a JS object keyed by invoice string. -/
def Cache : Type := String → Option InvoiceRecord

/-- Read a key of the cache object. -/
def cacheGet (c : Cache) (k : String) : Option InvoiceRecord := c k

/-- JS property assignment `cachedInvoiceResults[k] = v`. -/
def cacheInsert (c : Cache) (k : String) (v : InvoiceRecord) : Cache :=
  fun k2 => if k2 = k then some v else c k2

/-- Mutable module state of the listener process. -/
structure ServiceState where
  totalAmountSentInSats : ℚ
  cachedInvoiceResults : Cache

/-- Inbound transport event: id, sender pubkey, encrypted content. -/
structure NostrEvent where
  id : String
  pubkey : String
  content : String
deriving DecidableEq, Repr

/-- Plain (pre-encryption) content of an NWC response event. -/
structure ResponseContent where
  result_type : String
  result : Option ResultPayload
  error : Option (String × String)
deriving DecidableEq, Repr

/-- Outbound signed transport event. -/
structure OutEvent where
  kind : ℕ
  created_at : ℤ
  content : String
  tags : List (String × String)
deriving DecidableEq, Repr

/-- Oracle for the NIP-04 crypto layer: `decrypt` yields the parsed request
content or fails (decryption or JSON.parse throws); `encryptSign` serializes,
encrypts and signs the response content, or fails. -/
structure Crypto where
  decrypt : String → Option NwcRequestContent
  encryptSign : ResponseContent → Option String

/-- Result of one handler invocation: outcome (or thrown message), new module
state, and the provider calls it made. -/
structure HandlerOutput where
  result : Except String ResultPayload
  state : ServiceState
  calls : List ProviderCall

/-- Fixed human-readable message table keyed by error code. -/
def getErrorMessage (cfg : Config) (requestMethod : String) (errorCode : String) : String :=
  if errorCode = UNAUTHORIZED then
    "Unable to decrypt NWC request content or unauthorized sender."
  else if errorCode = NOT_IMPLEMENTED then
    requestMethod ++ " not currently supported."
  else if errorCode = QUOTA_EXCEEDED then
    "Payment would exceed max quota of " ++ toString cfg.TOTAL_MAX_SEND_AMOUNT_IN_SATS ++ "."
  else if errorCode = PAYMENT_FAILED then
    "Unable to complete payment."
  else if errorCode = NOT_FOUND then
    "Unable to find invoice."
  else if errorCode = INVALID_PARAMS then
    "Invalid parameters provided for the request."
  else
    "Something unexpected happened."

/-- Plain response content assembled by `makeNwcResponseEvent` before
encryption: error branch when `errorCode` is truthy, result branch otherwise. -/
def nwcResponseContent (cfg : Config) (requestMethod : String)
    (result : Option ResultPayload) (errorCode : Option String) : ResponseContent :=
  if strTruthy errorCode then
    { result_type := requestMethod, result := none,
      error := some (jsKey errorCode, getErrorMessage cfg requestMethod (jsKey errorCode)) }
  else
    { result_type := requestMethod, result := result, error := none }

/-- The NWCWalletResponse event kind. -/
def NWCWalletResponse : ℕ := 23195

/-- Build, encrypt and sign the NWC response event; `none` when the
encrypt/sign step throws. -/
def makeNwcResponseEvent (cr : Crypto) (cfg : Config) (now : ℤ) (eventId : String)
    (requestMethod : String) (result : Option ResultPayload) (errorCode : Option String) :
    Option OutEvent :=
  match cr.encryptSign (nwcResponseContent cfg requestMethod result errorCode) with
  | some ciphertext =>
      some { kind := NWCWalletResponse, created_at := now, content := ciphertext,
             tags := [("p", cfg.AUTHORIZED_PUBKEY), ("e", eventId)] }
  | none => none

/-- Amount derivation of `handlePayInvoiceRequest`:
`invoice ? extractAmountInSats(invoice) : 0`. -/
def deriveAmount (b : Bolt11) (invoice : Option String) : Except String ℚ :=
  if strTruthy invoice then b.amountSats (invoice.getD "") else Except.ok 0

/-- The `pay_invoice` handler: derive the amount from the invoice (0 when the
invoice param is falsy), enforce the spend quota, call the provider, and
commit the amount on success. -/
def handlePayInvoiceRequest (cfg : Config) (p : Provider) (b : Bolt11)
    (st : ServiceState) (content : NwcRequestContent) : HandlerOutput :=
  match deriveAmount b (content.params.bind Params.invoice) with
  | Except.error m => ⟨Except.error m, st, []⟩
  | Except.ok amountInSats =>
    if st.totalAmountSentInSats + amountInSats > cfg.TOTAL_MAX_SEND_AMOUNT_IN_SATS then
      ⟨Except.error QUOTA_EXCEEDED, st, []⟩
    else
      match p.payInvoice (content.params.bind Params.invoice) with
      | Except.ok _ =>
          ⟨Except.ok (ResultPayload.payInvoiceResult "gfy"),
           { st with totalAmountSentInSats := st.totalAmountSentInSats + amountInSats },
           [ProviderCall.payInvoice (content.params.bind Params.invoice)]⟩
      | Except.error _ =>
          ⟨Except.error PAYMENT_FAILED, st,
           [ProviderCall.payInvoice (content.params.bind Params.invoice)]⟩

/-- The `make_invoice` handler: destructuring absent params throws a raw
TypeError before the try block; otherwise the provider is called, the result
record is cached keyed by the returned invoice string, and provider failure
is classified INTERNAL. -/
def handleMakeInvoiceRequest (p : Provider) (st : ServiceState)
    (content : NwcRequestContent) : HandlerOutput :=
  match content.params with
  | none => ⟨Except.error destructureAmountMsg, st, []⟩
  | some params =>
    match p.makeInvoice params.amount params.description with
    | Except.ok d =>
        let result : InvoiceRecord :=
          { type := "incoming", invoice := d.invoice, description := params.description,
            amount := params.amount, created_at := d.createdAt, expires_at := d.expiresAt,
            metadata := { state := d.state, invoice_id := d.invoiceId } }
        ⟨Except.ok (ResultPayload.invoiceRecord result),
         { st with cachedInvoiceResults := cacheInsert st.cachedInvoiceResults d.invoice result },
         [ProviderCall.makeInvoice params.amount params.description]⟩
    | Except.error _ =>
        ⟨Except.error INTERNAL, st,
         [ProviderCall.makeInvoice params.amount params.description]⟩

/-- The `lookup_invoice` handler: destructuring absent params throws a raw
TypeError; an uncached invoice key is NOT_FOUND before any provider call; a
cached record has its `metadata.state` refreshed in place from the provider. -/
def handleLookupInvoiceRequest (p : Provider) (st : ServiceState)
    (content : NwcRequestContent) : HandlerOutput :=
  match content.params with
  | none => ⟨Except.error destructureInvoiceMsg, st, []⟩
  | some params =>
    match cacheGet st.cachedInvoiceResults (jsKey params.invoice) with
    | none => ⟨Except.error NOT_FOUND, st, []⟩
    | some r =>
      match p.lookupInvoice r.metadata.invoice_id with
      | Except.ok newState =>
          let r2 := { r with metadata := { r.metadata with state := newState } }
          ⟨Except.ok (ResultPayload.invoiceRecord r2),
           { st with cachedInvoiceResults :=
               cacheInsert st.cachedInvoiceResults (jsKey params.invoice) r2 },
           [ProviderCall.lookupInvoice r.metadata.invoice_id]⟩
      | Except.error _ =>
          ⟨Except.error INTERNAL, st, [ProviderCall.lookupInvoice r.metadata.invoice_id]⟩

/-- The `get_exchange_rates` handler. When `params.currency` is falsy the
source reads the module-level name STRIKE_SOURCE_CURRENCY, which is not
imported by the listener module, so a ReferenceError is thrown inside the
try block and classified INTERNAL without a provider call. -/
def handleGetExchangeRatesRequest (p : Provider) (st : ServiceState)
    (content : NwcRequestContent) : HandlerOutput :=
  let c := content.params.bind Params.currency
  if strTruthy c then
    match p.getExchangeRates (c.getD "") with
    | Except.ok d => ⟨Except.ok (ResultPayload.rawData d), st,
                      [ProviderCall.getExchangeRates (c.getD "")]⟩
    | Except.error _ => ⟨Except.error INTERNAL, st,
                         [ProviderCall.getExchangeRates (c.getD "")]⟩
  else
    ⟨Except.error INTERNAL, st, []⟩

/-- The `get_account_details` handler. -/
def handleGetAccountDetailsRequest (p : Provider) (st : ServiceState) : HandlerOutput :=
  match p.getAccountDetails with
  | Except.ok d => ⟨Except.ok (ResultPayload.rawData d), st, [ProviderCall.getAccountDetails]⟩
  | Except.error _ => ⟨Except.error INTERNAL, st, [ProviderCall.getAccountDetails]⟩

/-- The `get_balance` handler. -/
def handleGetBalanceRequest (p : Provider) (st : ServiceState) : HandlerOutput :=
  match p.getBalance with
  | Except.ok d => ⟨Except.ok (ResultPayload.rawData d), st, [ProviderCall.getBalance]⟩
  | Except.error _ => ⟨Except.error INTERNAL, st, [ProviderCall.getBalance]⟩

/-- The `get_transactions` handler: JS `||` defaults (a falsy limit or offset
picks the default), bounds validation before the provider call, INVALID_PARAMS
re-thrown unchanged and every other failure classified INTERNAL. -/
def handleGetTransactionsRequest (p : Provider) (st : ServiceState)
    (content : NwcRequestContent) : HandlerOutput :=
  let limit := jsOr (content.params.bind Params.limit) 10
  let offset := jsOr (content.params.bind Params.offset) 0
  if limit < 1 ∨ limit > 100 ∨ offset < 0 then
    ⟨Except.error INVALID_PARAMS, st, []⟩
  else
    match p.getTransactions limit offset with
    | Except.ok d => ⟨Except.ok (ResultPayload.rawData d), st,
                      [ProviderCall.getTransactions limit offset]⟩
    | Except.error _ => ⟨Except.error INTERNAL, st,
                         [ProviderCall.getTransactions limit offset]⟩

/-- Outcome of the try block of `handleNwcRequest`: the `result` and
`errorCode` locals, the decrypted content (when decryption succeeded), the
module state after the handler ran, and the provider calls made. -/
structure TryOutcome where
  result : Option ResultPayload
  errorCode : Option String
  content : Option NwcRequestContent
  state : ServiceState
  calls : List ProviderCall

/-- Convert a handler invocation into the try-block outcome: a returned value
fills `result`, a thrown message is caught and fills `errorCode`. -/
def runHandler (o : HandlerOutput) (c : NwcRequestContent) : TryOutcome :=
  match o.result with
  | Except.ok v => ⟨some v, none, some c, o.state, o.calls⟩
  | Except.error m => ⟨none, some m, some c, o.state, o.calls⟩

/-- The method names of the seven supported actions. -/
def supportedMethods : List String :=
  ["pay_invoice", "make_invoice", "lookup_invoice", "get_exchange_rates",
   "get_account_details", "get_balance", "get_transactions"]

/-- The try block of `handleNwcRequest`: decrypt (failure rethrown as
UNAUTHORIZED), validate the sender pubkey, then dispatch on the method
string; the default case sets NOT_IMPLEMENTED. -/
def tryPhase (cfg : Config) (p : Provider) (b : Bolt11) (cr : Crypto)
    (st : ServiceState) (event : NostrEvent) : TryOutcome :=
  match cr.decrypt event.content with
  | none => ⟨none, some UNAUTHORIZED, none, st, []⟩
  | some content =>
    if event.pubkey = cfg.NWC_CONNECTION_PUBKEY then
      match content.method with
      | JStr.str s =>
        if s = "pay_invoice" then
          runHandler (handlePayInvoiceRequest cfg p b st content) content
        else if s = "make_invoice" then
          runHandler (handleMakeInvoiceRequest p st content) content
        else if s = "lookup_invoice" then
          runHandler (handleLookupInvoiceRequest p st content) content
        else if s = "get_exchange_rates" then
          runHandler (handleGetExchangeRatesRequest p st content) content
        else if s = "get_account_details" then
          runHandler (handleGetAccountDetailsRequest p st) content
        else if s = "get_balance" then
          runHandler (handleGetBalanceRequest p st) content
        else if s = "get_transactions" then
          runHandler (handleGetTransactionsRequest p st content) content
        else ⟨none, some NOT_IMPLEMENTED, some content, st, []⟩
      | _ => ⟨none, some NOT_IMPLEMENTED, some content, st, []⟩
    else ⟨none, some UNAUTHORIZED, some content, st, []⟩

/-- `nwcRequestContent?.method ?? "unknown"`: the method string reported in
the response, with the "unknown" sentinel for a nullish method or when
decryption failed. -/
def jsMethodString : Option NwcRequestContent → String
  | none => "unknown"
  | some c =>
    match c.method with
    | JStr.str s => s
    | _ => "unknown"

/-- Result of processing one inbound event: the module state, the provider
calls made, and the published responses (empty when encrypt/sign failed). -/
structure PipelineOutput where
  state : ServiceState
  calls : List ProviderCall
  published : List OutEvent

/-- Process one inbound NWC request event end to end: try block, then
response construction and publication; a response whose construction throws
is logged and dropped. -/
def handleNwcRequest (cfg : Config) (p : Provider) (b : Bolt11) (cr : Crypto)
    (now : ℤ) (st : ServiceState) (event : NostrEvent) : PipelineOutput :=
  let t := tryPhase cfg p b cr st event
  match makeNwcResponseEvent cr cfg now event.id (jsMethodString t.content) t.result t.errorCode with
  | some ev => ⟨t.state, t.calls, [ev]⟩
  | none => ⟨t.state, t.calls, []⟩

/-- Amount a pay_invoice request commits on success (0 for a falsy invoice). -/
def derivedAmount (b : Bolt11) (c : NwcRequestContent) : ℚ :=
  match deriveAmount b (c.params.bind Params.invoice) with
  | Except.ok a => a
  | Except.error _ => 0

/-- Run a list of pay_invoice requests sequentially through the handler,
threading the module state. -/
def runPayList (cfg : Config) (p : Provider) (b : Bolt11) :
    ServiceState → List NwcRequestContent → ServiceState
  | st, [] => st
  | st, c :: rest =>
      runPayList cfg p b (handlePayInvoiceRequest cfg p b st c).state rest

/-- Whether every pay_invoice request of the list succeeds when the list is
run sequentially from the given state. -/
def allPaysOk (cfg : Config) (p : Provider) (b : Bolt11) :
    ServiceState → List NwcRequestContent → Bool
  | _, [] => true
  | st, c :: rest =>
      match (handlePayInvoiceRequest cfg p b st c).result with
      | Except.ok _ => allPaysOk cfg p b (handlePayInvoiceRequest cfg p b st c).state rest
      | Except.error _ => false

lemma runHandler_state (o : HandlerOutput) (c : NwcRequestContent) :
    (runHandler o c).state = o.state := by
  unfold runHandler
  cases o.result <;> rfl

lemma runHandler_calls (o : HandlerOutput) (c : NwcRequestContent) :
    (runHandler o c).calls = o.calls := by
  unfold runHandler
  cases o.result <;> rfl

lemma pay_ok_total (cfg : Config) (p : Provider) (b : Bolt11) (st : ServiceState)
    (c : NwcRequestContent) (v : ResultPayload)
    (h : (handlePayInvoiceRequest cfg p b st c).result = Except.ok v) :
    (handlePayInvoiceRequest cfg p b st c).state.totalAmountSentInSats
      = st.totalAmountSentInSats + derivedAmount b c := by
  unfold handlePayInvoiceRequest at h ⊢
  unfold derivedAmount
  cases hd : deriveAmount b (c.params.bind Params.invoice) with
  | error m => simp [hd] at h
  | ok a =>
    simp only [hd] at h ⊢
    by_cases hq : st.totalAmountSentInSats + a > cfg.TOTAL_MAX_SEND_AMOUNT_IN_SATS
    · simp [hq] at h
    · simp only [if_neg hq] at h ⊢
      cases hp : p.payInvoice (c.params.bind Params.invoice) with
      | ok u => simp [hp]
      | error e => simp [hp] at h

lemma pay_err_state (cfg : Config) (p : Provider) (b : Bolt11) (st : ServiceState)
    (c : NwcRequestContent) (m : String)
    (h : (handlePayInvoiceRequest cfg p b st c).result = Except.error m) :
    (handlePayInvoiceRequest cfg p b st c).state = st := by
  unfold handlePayInvoiceRequest at h ⊢
  cases hd : deriveAmount b (c.params.bind Params.invoice) with
  | error m2 => simp [hd]
  | ok a =>
    simp only [hd] at h ⊢
    by_cases hq : st.totalAmountSentInSats + a > cfg.TOTAL_MAX_SEND_AMOUNT_IN_SATS
    · simp [hq]
    · simp only [if_neg hq] at h ⊢
      cases hp : p.payInvoice (c.params.bind Params.invoice) with
      | ok u => simp [hp] at h
      | error e => simp [hp]

-- Concrete fixtures used by the witness theorems.

/-- Fixture configuration: ceiling 100 sats, connection pubkey "connpk". -/
def cfg0 : Config := ⟨100, "connpk", "authpk"⟩

/-- Fixture provider on which every capability fails. -/
def pFail : Provider :=
  ⟨fun _ => Except.error (), fun _ _ => Except.error (), fun _ => Except.error (),
   fun _ => Except.error (), Except.error (), Except.error (), fun _ _ => Except.error ()⟩

/-- Fixture invoice data returned by the succeeding provider. -/
def mkData0 : MakeInvoiceData := ⟨"inv-id-1", "lnbc-string-1", "PENDING", 1700000000, 1700003600⟩

/-- Fixture provider on which every capability succeeds. -/
def pOk : Provider :=
  ⟨fun _ => Except.ok (), fun _ _ => Except.ok mkData0, fun _ => Except.ok "PAID",
   fun _ => Except.ok "rates", Except.ok "details", Except.ok "balance",
   fun _ _ => Except.ok "txs"⟩

/-- Fixture bolt11 oracle: every invoice decodes with embedded amount 60 sats. -/
def b60 : Bolt11 := ⟨fun _ => Except.ok 60⟩

/-- Fixture module state: 50 sats already sent, empty cache. -/
def st50 : ServiceState := ⟨50, fun _ => none⟩

/-- Fixture module state: nothing sent yet, empty cache. -/
def stZero : ServiceState := ⟨0, fun _ => none⟩

/-- Fixture pay_invoice request content carrying invoice "lnbc1". -/
def cPay0 : NwcRequestContent := ⟨JStr.str "pay_invoice", some { invoice := some "lnbc1" }⟩

/-- C1: a pay_invoice request whose invoice-embedded amount plus the current
total exceeds the ceiling yields QUOTA_EXCEEDED, makes no provider call, and
leaves the total unchanged. -/
theorem C1_quota_exceeded_before_provider (cfg : Config) (p : Provider) (b : Bolt11)
    (st : ServiceState) (c : NwcRequestContent) (inv : String) (a : ℚ)
    (hinv : c.params.bind Params.invoice = some inv)
    (hne : inv ≠ "")
    (hamt : b.amountSats inv = Except.ok a)
    (hq : st.totalAmountSentInSats + a > cfg.TOTAL_MAX_SEND_AMOUNT_IN_SATS) :
    (handlePayInvoiceRequest cfg p b st c).result = Except.error QUOTA_EXCEEDED ∧
    (handlePayInvoiceRequest cfg p b st c).calls = [] ∧
    (handlePayInvoiceRequest cfg p b st c).state = st := by
  have hd : deriveAmount b (c.params.bind Params.invoice) = Except.ok a := by
    unfold deriveAmount
    rw [hinv]
    simp [strTruthy, hne, hamt]
  unfold handlePayInvoiceRequest
  simp [hd, if_pos hq]

/-- Witness for C1 at a concrete input: total 50, embedded amount 60, ceiling 100. -/
theorem C1_quota_exceeded_before_provider_witness :
    (handlePayInvoiceRequest cfg0 pFail b60 st50 cPay0).result = Except.error QUOTA_EXCEEDED ∧
    (handlePayInvoiceRequest cfg0 pFail b60 st50 cPay0).calls = [] ∧
    (handlePayInvoiceRequest cfg0 pFail b60 st50 cPay0).state = st50 :=
  C1_quota_exceeded_before_provider cfg0 pFail b60 st50 cPay0 "lnbc1" 60
    (by rfl) (by decide) (by rfl) (by norm_num [st50, cfg0])

/-- C2: processing any inbound event publishes at most one response, every
published response carries the originating event id in its "e" tag, and the
event goes unanswered exactly when the encrypt/sign step of the response
construction fails. -/
theorem C2_exactly_one_correlated_response (cfg : Config) (p : Provider) (b : Bolt11)
    (cr : Crypto) (now : ℤ) (st : ServiceState) (event : NostrEvent) :
    (handleNwcRequest cfg p b cr now st event).published.length ≤ 1 ∧
    (∀ ev ∈ (handleNwcRequest cfg p b cr now st event).published,
      ("e", event.id) ∈ ev.tags) ∧
    ((handleNwcRequest cfg p b cr now st event).published = [] ↔
      cr.encryptSign
        (nwcResponseContent cfg
          (jsMethodString (tryPhase cfg p b cr st event).content)
          (tryPhase cfg p b cr st event).result
          (tryPhase cfg p b cr st event).errorCode) = none) := by
  unfold handleNwcRequest makeNwcResponseEvent
  cases hs : cr.encryptSign
      (nwcResponseContent cfg
        (jsMethodString (tryPhase cfg p b cr st event).content)
        (tryPhase cfg p b cr st event).result
        (tryPhase cfg p b cr st event).errorCode) with
  | none => simp [hs]
  | some ct => simp [hs]

/-- C3: when the transport envelope sender pubkey differs from the configured
connection pubkey, no handler runs (no result, no provider call, state
untouched) and the response content built for publication carries error code
UNAUTHORIZED. -/
theorem C3_unauthorized_sender_no_handler (cfg : Config) (p : Provider) (b : Bolt11)
    (cr : Crypto) (st : ServiceState) (event : NostrEvent)
    (h : event.pubkey ≠ cfg.NWC_CONNECTION_PUBKEY) :
    (tryPhase cfg p b cr st event).errorCode = some UNAUTHORIZED ∧
    (tryPhase cfg p b cr st event).result = none ∧
    (tryPhase cfg p b cr st event).calls = [] ∧
    (tryPhase cfg p b cr st event).state = st ∧
    (nwcResponseContent cfg
        (jsMethodString (tryPhase cfg p b cr st event).content)
        (tryPhase cfg p b cr st event).result
        (tryPhase cfg p b cr st event).errorCode).error.map Prod.fst
      = some UNAUTHORIZED := by
  have ht : tryPhase cfg p b cr st event =
      ⟨none, some UNAUTHORIZED, (cr.decrypt event.content), st, []⟩ := by
    unfold tryPhase
    cases hd : cr.decrypt event.content with
    | none => rfl
    | some content => simp [h]
  rw [ht]
  refine ⟨rfl, rfl, rfl, rfl, ?_⟩
  simp [nwcResponseContent, strTruthy, jsKey, UNAUTHORIZED]

/-- Fixture crypto layer: decryption always yields `cPay0`, sealing succeeds. -/
def crPay : Crypto := ⟨fun _ => some cPay0, fun _ => some "ciphertext"⟩

/-- Fixture inbound event from an unauthorized pubkey. -/
def evBadSender : NostrEvent := ⟨"evt-1", "intruderpk", "cipher"⟩

/-- Witness for C3 at a concrete input: sender pubkey "intruderpk" against
configured "connpk". -/
theorem C3_unauthorized_sender_no_handler_witness :
    (tryPhase cfg0 pOk b60 crPay st50 evBadSender).errorCode = some UNAUTHORIZED ∧
    (tryPhase cfg0 pOk b60 crPay st50 evBadSender).result = none ∧
    (tryPhase cfg0 pOk b60 crPay st50 evBadSender).calls = [] ∧
    (tryPhase cfg0 pOk b60 crPay st50 evBadSender).state = st50 ∧
    (nwcResponseContent cfg0
        (jsMethodString (tryPhase cfg0 pOk b60 crPay st50 evBadSender).content)
        (tryPhase cfg0 pOk b60 crPay st50 evBadSender).result
        (tryPhase cfg0 pOk b60 crPay st50 evBadSender).errorCode).error.map Prod.fst
      = some UNAUTHORIZED :=
  C3_unauthorized_sender_no_handler cfg0 pOk b60 crPay st50 evBadSender (by decide)

/-- Fixture inbound event whose sender is the configured connection pubkey. -/
def evConn : NostrEvent := ⟨"evt-2", "connpk", "cipher"⟩

/-- Fixture request content with an absent method field. -/
def cNoMethod : NwcRequestContent := ⟨JStr.undef, some {}⟩

/-- Fixture crypto layer decrypting every ciphertext to `cNoMethod`. -/
def crNoMethod : Crypto := ⟨fun _ => some cNoMethod, fun _ => some "ct"⟩

/-- Counterexample to C6 as stated: a request with an absent method field is
dispatched to NOT_IMPLEMENTED, but its response reports the "unknown"
sentinel as result_type, not the empty-string method the claim promises. -/
theorem C6_counterexample_absent_method_is_unknown :
    (tryPhase cfg0 pOk b60 crNoMethod st50 evConn).errorCode = some NOT_IMPLEMENTED ∧
    jsMethodString (tryPhase cfg0 pOk b60 crNoMethod st50 evConn).content = "unknown" ∧
    jsMethodString (tryPhase cfg0 pOk b60 crNoMethod st50 evConn).content ≠ "" := by
  refine ⟨rfl, rfl, ?_⟩
  decide

/-- C6 (amended): every method outside the seven supported ones — any
unrecognized string, the empty string, null, or an absent method field —
dispatches to NOT_IMPLEMENTED (never UNAUTHORIZED) with no handler run and
no provider call; a nullish (absent or null) method is reported with the
"unknown" sentinel result_type, while an explicit empty string keeps "". -/
theorem C6_unknown_method_not_implemented (cfg : Config) (p : Provider) (b : Bolt11)
    (cr : Crypto) (st : ServiceState) (event : NostrEvent) (c : NwcRequestContent)
    (hdec : cr.decrypt event.content = some c)
    (hpk : event.pubkey = cfg.NWC_CONNECTION_PUBKEY)
    (hns : ∀ s, c.method = JStr.str s → s ∉ supportedMethods) :
    (tryPhase cfg p b cr st event).errorCode = some NOT_IMPLEMENTED ∧
    (tryPhase cfg p b cr st event).errorCode ≠ some UNAUTHORIZED ∧
    (tryPhase cfg p b cr st event).result = none ∧
    (tryPhase cfg p b cr st event).calls = [] ∧
    (tryPhase cfg p b cr st event).state = st ∧
    jsMethodString (tryPhase cfg p b cr st event).content
      = (match c.method with | JStr.str s => s | _ => "unknown") := by
  have ht : tryPhase cfg p b cr st event = ⟨none, some NOT_IMPLEMENTED, some c, st, []⟩ := by
    unfold tryPhase
    simp only [hdec, if_pos hpk]
    cases hm : c.method with
    | undef => rfl
    | null => rfl
    | str s =>
      have h := hns s hm
      simp only [supportedMethods, List.mem_cons, List.not_mem_nil, or_false] at h
      push_neg at h
      obtain ⟨h1, h2, h3, h4, h5, h6, h7⟩ := h
      simp [h1, h2, h3, h4, h5, h6, h7]
  rw [ht]
  refine ⟨rfl, ?_, rfl, rfl, rfl, rfl⟩
  simp [NOT_IMPLEMENTED, UNAUTHORIZED]

/-- Witness for C6 at a concrete input: an absent method field under an
authorized sender. -/
theorem C6_unknown_method_not_implemented_witness :
    (tryPhase cfg0 pFail b60 crNoMethod st50 evConn).errorCode = some NOT_IMPLEMENTED ∧
    (tryPhase cfg0 pFail b60 crNoMethod st50 evConn).errorCode ≠ some UNAUTHORIZED ∧
    (tryPhase cfg0 pFail b60 crNoMethod st50 evConn).result = none ∧
    (tryPhase cfg0 pFail b60 crNoMethod st50 evConn).calls = [] ∧
    (tryPhase cfg0 pFail b60 crNoMethod st50 evConn).state = st50 ∧
    jsMethodString (tryPhase cfg0 pFail b60 crNoMethod st50 evConn).content
      = (match cNoMethod.method with | JStr.str s => s | _ => "unknown") :=
  C6_unknown_method_not_implemented cfg0 pFail b60 crNoMethod st50 evConn cNoMethod
    (by rfl) (by rfl) (fun s h => JStr.noConfusion h)

/-- A get_transactions request content with the given limit and offset params. -/
def txContent (lq oq : Option ℚ) : NwcRequestContent :=
  ⟨JStr.str "get_transactions", some { limit := lq, offset := oq }⟩

lemma tx_invalid (p : Provider) (st : ServiceState) (c : NwcRequestContent)
    (h : jsOr (c.params.bind Params.limit) 10 < 1 ∨
         jsOr (c.params.bind Params.limit) 10 > 100 ∨
         jsOr (c.params.bind Params.offset) 0 < 0) :
    (handleGetTransactionsRequest p st c).result = Except.error INVALID_PARAMS ∧
    (handleGetTransactionsRequest p st c).calls = [] ∧
    (handleGetTransactionsRequest p st c).state = st := by
  unfold handleGetTransactionsRequest
  simp [if_pos h]

lemma tx_valid (p : Provider) (st : ServiceState) (c : NwcRequestContent)
    (h : ¬(jsOr (c.params.bind Params.limit) 10 < 1 ∨
           jsOr (c.params.bind Params.limit) 10 > 100 ∨
           jsOr (c.params.bind Params.offset) 0 < 0)) :
    (handleGetTransactionsRequest p st c).calls
      = [ProviderCall.getTransactions (jsOr (c.params.bind Params.limit) 10)
           (jsOr (c.params.bind Params.offset) 0)] ∧
    (handleGetTransactionsRequest p st c).result ≠ Except.error INVALID_PARAMS := by
  unfold handleGetTransactionsRequest
  simp only [if_neg h]
  cases hp : p.getTransactions (jsOr (c.params.bind Params.limit) 10)
      (jsOr (c.params.bind Params.offset) 0) with
  | ok d => simp [hp]
  | error e => simp [hp, INTERNAL, INVALID_PARAMS]

/-- Counterexample to C5 as stated: get_transactions with limit 0 is not
rejected with INVALID_PARAMS; the falsy limit is replaced by the default 10
and the provider is called with limit 10. -/
theorem C5_counterexample_limit_zero_accepted :
    (handleGetTransactionsRequest pOk st50 (txContent (some 0) none)).result
      = Except.ok (ResultPayload.rawData "txs") ∧
    (handleGetTransactionsRequest pOk st50 (txContent (some 0) none)).calls
      = [ProviderCall.getTransactions 10 0] := by
  constructor <;> rfl

/-- C5 (amended): get_transactions validates pagination bounds before any
provider call — limit 101 or offset -1 yields INVALID_PARAMS with no provider
call, limit 1 and limit 100 are accepted, limit defaults to 10 and offset to
0 — but a falsy limit or offset (in particular limit 0) is replaced by its
default before validation, so limit 0 is accepted and the provider is called
with limit 10; any numeric limit in [1,100] passes (integrality is not
checked). -/
theorem C5_get_transactions_bounds (p : Provider) (st : ServiceState) (lq oq : Option ℚ) :
    ((jsOr lq 10 < 1 ∨ jsOr lq 10 > 100 ∨ jsOr oq 0 < 0) →
      (handleGetTransactionsRequest p st (txContent lq oq)).result
          = Except.error INVALID_PARAMS ∧
      (handleGetTransactionsRequest p st (txContent lq oq)).calls = []) ∧
    (¬(jsOr lq 10 < 1 ∨ jsOr lq 10 > 100 ∨ jsOr oq 0 < 0) →
      (handleGetTransactionsRequest p st (txContent lq oq)).calls
          = [ProviderCall.getTransactions (jsOr lq 10) (jsOr oq 0)] ∧
      (handleGetTransactionsRequest p st (txContent lq oq)).result
          ≠ Except.error INVALID_PARAMS) ∧
    (handleGetTransactionsRequest p st (txContent (some 101) oq)).result
        = Except.error INVALID_PARAMS ∧
    (handleGetTransactionsRequest p st (txContent (some 101) oq)).calls = [] ∧
    (handleGetTransactionsRequest p st (txContent lq (some (-1)))).result
        = Except.error INVALID_PARAMS ∧
    (handleGetTransactionsRequest p st (txContent lq (some (-1)))).calls = [] ∧
    (handleGetTransactionsRequest p st (txContent (some 1) none)).calls
        = [ProviderCall.getTransactions 1 0] ∧
    (handleGetTransactionsRequest p st (txContent (some 100) none)).calls
        = [ProviderCall.getTransactions 100 0] ∧
    (handleGetTransactionsRequest p st (txContent (some 0) none)).calls
        = [ProviderCall.getTransactions 10 0] ∧
    (handleGetTransactionsRequest p st (txContent none none)).calls
        = [ProviderCall.getTransactions 10 0] := by
  have hb : ∀ lq2 oq2, (txContent lq2 oq2).params.bind Params.limit = lq2 ∧
      (txContent lq2 oq2).params.bind Params.offset = oq2 := by
    intro lq2 oq2
    exact ⟨rfl, rfl⟩
  refine ⟨?_, ?_, ?_, ?_, ?_, ?_, ?_, ?_, ?_, ?_⟩
  · intro h
    have := tx_invalid p st (txContent lq oq) (by rw [(hb lq oq).1, (hb lq oq).2]; exact h)
    exact ⟨this.1, this.2.1⟩
  · intro h
    exact tx_valid p st (txContent lq oq) (by rw [(hb lq oq).1, (hb lq oq).2]; exact h)
  · exact (tx_invalid p st (txContent (some 101) oq) (by norm_num [txContent, jsOr])).1
  · exact (tx_invalid p st (txContent (some 101) oq) (by norm_num [txContent, jsOr])).2.1
  · refine (tx_invalid p st (txContent lq (some (-1))) ?_).1
    right; right
    norm_num [txContent, jsOr]
  · refine (tx_invalid p st (txContent lq (some (-1))) ?_).2.1
    right; right
    norm_num [txContent, jsOr]
  · exact ((tx_valid p st (txContent (some 1) none) (by norm_num [txContent, jsOr])).1)
  · exact ((tx_valid p st (txContent (some 100) none) (by norm_num [txContent, jsOr])).1)
  · exact ((tx_valid p st (txContent (some 0) none) (by norm_num [txContent, jsOr])).1)
  · exact ((tx_valid p st (txContent none none) (by norm_num [txContent, jsOr])).1)

/-- C10: a pay_invoice request with an absent invoice param derives amount 0,
passes the quota check whenever the running total is at or below the ceiling,
still invokes the provider payment capability with the absent invoice, turns
a provider failure into PAYMENT_FAILED with the total unchanged, and never
reports INVALID_PARAMS. -/
theorem C10_absent_invoice_payment_failed (cfg : Config) (p : Provider) (b : Bolt11)
    (st : ServiceState) (c : NwcRequestContent)
    (hinv : c.params.bind Params.invoice = none)
    (hq : st.totalAmountSentInSats ≤ cfg.TOTAL_MAX_SEND_AMOUNT_IN_SATS) :
    derivedAmount b c = 0 ∧
    (handlePayInvoiceRequest cfg p b st c).calls = [ProviderCall.payInvoice none] ∧
    (p.payInvoice none = Except.error () →
      (handlePayInvoiceRequest cfg p b st c).result = Except.error PAYMENT_FAILED ∧
      (handlePayInvoiceRequest cfg p b st c).state.totalAmountSentInSats
        = st.totalAmountSentInSats) ∧
    (handlePayInvoiceRequest cfg p b st c).result ≠ Except.error INVALID_PARAMS := by
  have hd : deriveAmount b none = Except.ok 0 := rfl
  have hnq : ¬(st.totalAmountSentInSats + 0 > cfg.TOTAL_MAX_SEND_AMOUNT_IN_SATS) := by
    rw [add_zero]
    exact not_lt.mpr hq
  have hda : derivedAmount b c = 0 := by
    unfold derivedAmount
    rw [hinv, hd]
  cases hp : p.payInvoice none with
  | ok u =>
    have key : handlePayInvoiceRequest cfg p b st c =
        ⟨Except.ok (ResultPayload.payInvoiceResult "gfy"),
         { st with totalAmountSentInSats := st.totalAmountSentInSats + 0 },
         [ProviderCall.payInvoice none]⟩ := by
      unfold handlePayInvoiceRequest
      simp only [hinv, hd, if_neg hnq, hp]
    refine ⟨hda, by rw [key], ?_, ?_⟩
    · intro h
      simp at h
    · rw [key]
      simp
  | error e =>
    have key : handlePayInvoiceRequest cfg p b st c =
        ⟨Except.error PAYMENT_FAILED, st, [ProviderCall.payInvoice none]⟩ := by
      unfold handlePayInvoiceRequest
      simp only [hinv, hd, if_neg hnq, hp]
    refine ⟨hda, by rw [key], fun _ => by rw [key]; exact ⟨rfl, rfl⟩, ?_⟩
    rw [key]
    intro h
    have h2 : PAYMENT_FAILED = INVALID_PARAMS := by injection h
    exact absurd h2 (by decide)

/-- Fixture pay_invoice request content with no invoice param. -/
def cPayNoInvoice : NwcRequestContent := ⟨JStr.str "pay_invoice", some {}⟩

/-- Witness for C10 at a concrete input: absent invoice, total 50 of ceiling
100, failing provider. -/
theorem C10_absent_invoice_payment_failed_witness :
    derivedAmount b60 cPayNoInvoice = 0 ∧
    (handlePayInvoiceRequest cfg0 pFail b60 st50 cPayNoInvoice).calls
      = [ProviderCall.payInvoice none] ∧
    (pFail.payInvoice none = Except.error () →
      (handlePayInvoiceRequest cfg0 pFail b60 st50 cPayNoInvoice).result
        = Except.error PAYMENT_FAILED ∧
      (handlePayInvoiceRequest cfg0 pFail b60 st50 cPayNoInvoice).state.totalAmountSentInSats
        = st50.totalAmountSentInSats) ∧
    (handlePayInvoiceRequest cfg0 pFail b60 st50 cPayNoInvoice).result
      ≠ Except.error INVALID_PARAMS :=
  C10_absent_invoice_payment_failed cfg0 pFail b60 st50 cPayNoInvoice
    (by rfl) (by norm_num [st50, cfg0])

lemma cacheGet_cacheInsert_self (c : Cache) (k : String) (v : InvoiceRecord) :
    cacheGet (cacheInsert c k v) k = some v := by
  simp [cacheGet, cacheInsert]

/-- C9: lookup_invoice for an invoice string never cached yields NOT_FOUND
without any provider call; after a successful make_invoice whose provider
data carries invoice string `d.invoice`, lookup_invoice for that string
returns the cached record with `metadata.state` refreshed to the state the
provider last reported. -/
theorem C9_invoice_cache_roundtrip (p : Provider) (st : ServiceState)
    (cMiss cMake cLook : NwcRequestContent) (prMiss pm pl : Params)
    (d : MakeInvoiceData) (s2 : String)
    (h1 : cMiss.params = some prMiss)
    (h2 : cacheGet st.cachedInvoiceResults (jsKey prMiss.invoice) = none)
    (h3 : cMake.params = some pm)
    (h4 : p.makeInvoice pm.amount pm.description = Except.ok d)
    (h5 : p.lookupInvoice d.invoiceId = Except.ok s2)
    (h6 : cLook.params = some pl)
    (h7 : pl.invoice = some d.invoice) :
    (handleLookupInvoiceRequest p st cMiss).result = Except.error NOT_FOUND ∧
    (handleLookupInvoiceRequest p st cMiss).calls = [] ∧
    (handleLookupInvoiceRequest p st cMiss).state = st ∧
    (∃ r0, (handleMakeInvoiceRequest p st cMake).result
        = Except.ok (ResultPayload.invoiceRecord r0) ∧ r0.invoice = d.invoice) ∧
    (∃ r, (handleLookupInvoiceRequest p (handleMakeInvoiceRequest p st cMake).state
              cLook).result = Except.ok (ResultPayload.invoiceRecord r) ∧
      r.metadata.state = s2 ∧ r.invoice = d.invoice ∧
      r.metadata.invoice_id = d.invoiceId) := by
  have hmiss : handleLookupInvoiceRequest p st cMiss =
      ⟨Except.error NOT_FOUND, st, []⟩ := by
    unfold handleLookupInvoiceRequest
    simp only [h1, h2]
  refine ⟨by rw [hmiss], by rw [hmiss], by rw [hmiss], ?_, ?_⟩
  · refine ⟨{ type := "incoming", invoice := d.invoice, description := pm.description,
              amount := pm.amount, created_at := d.createdAt, expires_at := d.expiresAt,
              metadata := { state := d.state, invoice_id := d.invoiceId } }, ?_, rfl⟩
    unfold handleMakeInvoiceRequest
    simp only [h3, h4]
  · have hst1 : (handleMakeInvoiceRequest p st cMake).state.cachedInvoiceResults =
        cacheInsert st.cachedInvoiceResults d.invoice
          { type := "incoming", invoice := d.invoice, description := pm.description,
            amount := pm.amount, created_at := d.createdAt, expires_at := d.expiresAt,
            metadata := { state := d.state, invoice_id := d.invoiceId } } := by
      unfold handleMakeInvoiceRequest
      simp only [h3, h4]
    refine ⟨{ type := "incoming", invoice := d.invoice, description := pm.description,
              amount := pm.amount, created_at := d.createdAt, expires_at := d.expiresAt,
              metadata := { state := s2, invoice_id := d.invoiceId } }, ?_, rfl, rfl, rfl⟩
    unfold handleLookupInvoiceRequest
    simp only [h6, h7, hst1, jsKey, cacheGet_cacheInsert_self, h5]

/-- Fixture params of the missing-invoice lookup. -/
def prMiss0 : Params := { invoice := some "unknown-string" }

/-- Fixture lookup_invoice request for a never-cached invoice string. -/
def cMiss0 : NwcRequestContent := ⟨JStr.str "lookup_invoice", some prMiss0⟩

/-- Fixture params of the make_invoice request. -/
def pmMake0 : Params := { amount := some 1000, description := some "coffee" }

/-- Fixture make_invoice request content. -/
def cMake0 : NwcRequestContent := ⟨JStr.str "make_invoice", some pmMake0⟩

/-- Fixture params of the lookup_invoice request for the cached invoice. -/
def plLook0 : Params := { invoice := some "lnbc-string-1" }

/-- Fixture lookup_invoice request for the invoice cached by `cMake0`. -/
def cLook0 : NwcRequestContent := ⟨JStr.str "lookup_invoice", some plLook0⟩

/-- Witness for C9 at a concrete input: an uncached lookup is NOT_FOUND and a
make_invoice/lookup_invoice round trip reports the provider state "PAID". -/
theorem C9_invoice_cache_roundtrip_witness :
    (handleLookupInvoiceRequest pOk stZero cMiss0).result = Except.error NOT_FOUND ∧
    (handleLookupInvoiceRequest pOk stZero cMiss0).calls = [] ∧
    (handleLookupInvoiceRequest pOk stZero cMiss0).state = stZero ∧
    (∃ r0, (handleMakeInvoiceRequest pOk stZero cMake0).result
        = Except.ok (ResultPayload.invoiceRecord r0) ∧ r0.invoice = mkData0.invoice) ∧
    (∃ r, (handleLookupInvoiceRequest pOk (handleMakeInvoiceRequest pOk stZero cMake0).state
              cLook0).result = Except.ok (ResultPayload.invoiceRecord r) ∧
      r.metadata.state = "PAID" ∧ r.invoice = mkData0.invoice ∧
      r.metadata.invoice_id = mkData0.invoiceId) :=
  C9_invoice_cache_roundtrip pOk stZero cMiss0 cMake0 cLook0 prMiss0 pmMake0 plLook0
    mkData0 "PAID" (by rfl) (by rfl) (by rfl) (by rfl) (by rfl) (by rfl) (by rfl)

lemma runHandler_errorCode_ok (o : HandlerOutput) (c : NwcRequestContent)
    (v : ResultPayload) (h : o.result = Except.ok v) :
    (runHandler o c).errorCode = none := by
  unfold runHandler
  rw [h]

lemma runHandler_errorCode_err (o : HandlerOutput) (c : NwcRequestContent)
    (m : String) (h : o.result = Except.error m) :
    (runHandler o c).errorCode = some m := by
  unfold runHandler
  rw [h]

lemma pay_err_cases (cfg : Config) (p : Provider) (b : Bolt11) (st : ServiceState)
    (c : NwcRequestContent) (m : String)
    (h : (handlePayInvoiceRequest cfg p b st c).result = Except.error m) :
    m = QUOTA_EXCEEDED ∨ m = PAYMENT_FAILED ∨ ∃ s, b.amountSats s = Except.error m := by
  unfold handlePayInvoiceRequest at h
  cases hd : deriveAmount b (c.params.bind Params.invoice) with
  | error m2 =>
    simp only [hd] at h
    have hm : m2 = m := by
      simpa using h
    subst hm
    right; right
    unfold deriveAmount at hd
    by_cases ht : strTruthy (c.params.bind Params.invoice)
    · rw [if_pos ht] at hd
      exact ⟨(c.params.bind Params.invoice).getD "", hd⟩
    · rw [if_neg ht] at hd
      cases hd
  | ok a =>
    simp only [hd] at h
    by_cases hq : st.totalAmountSentInSats + a > cfg.TOTAL_MAX_SEND_AMOUNT_IN_SATS
    · simp only [if_pos hq] at h
      left
      have := h
      simpa using this.symm
    · simp only [if_neg hq] at h
      cases hp : p.payInvoice (c.params.bind Params.invoice) with
      | ok u => simp [hp] at h
      | error e =>
        simp only [hp] at h
        right; left
        simpa using h.symm

lemma make_err_cases (p : Provider) (st : ServiceState) (c : NwcRequestContent) (m : String)
    (h : (handleMakeInvoiceRequest p st c).result = Except.error m) :
    m = destructureAmountMsg ∨ m = INTERNAL := by
  unfold handleMakeInvoiceRequest at h
  cases hp : c.params with
  | none =>
    simp only [hp] at h
    left
    simpa using h.symm
  | some pr =>
    simp only [hp] at h
    cases hm : p.makeInvoice pr.amount pr.description with
    | ok d => simp [hm] at h
    | error e =>
      simp only [hm] at h
      right
      simpa using h.symm

lemma lookup_err_cases (p : Provider) (st : ServiceState) (c : NwcRequestContent) (m : String)
    (h : (handleLookupInvoiceRequest p st c).result = Except.error m) :
    m = destructureInvoiceMsg ∨ m = NOT_FOUND ∨ m = INTERNAL := by
  unfold handleLookupInvoiceRequest at h
  cases hp : c.params with
  | none =>
    simp only [hp] at h
    left
    simpa using h.symm
  | some pr =>
    simp only [hp] at h
    cases hg : cacheGet st.cachedInvoiceResults (jsKey pr.invoice) with
    | none =>
      simp only [hg] at h
      right; left
      simpa using h.symm
    | some r =>
      simp only [hg] at h
      cases hl : p.lookupInvoice r.metadata.invoice_id with
      | ok s2 => simp [hl] at h
      | error e =>
        simp only [hl] at h
        right; right
        simpa using h.symm

lemma rates_err_cases (p : Provider) (st : ServiceState) (c : NwcRequestContent) (m : String)
    (h : (handleGetExchangeRatesRequest p st c).result = Except.error m) :
    m = INTERNAL := by
  unfold handleGetExchangeRatesRequest at h
  by_cases ht : strTruthy (c.params.bind Params.currency)
  · simp only [if_pos ht] at h
    cases hg : p.getExchangeRates ((c.params.bind Params.currency).getD "") with
    | ok d => simp [hg] at h
    | error e =>
      simp only [hg] at h
      simpa using h.symm
  · simp only [if_neg ht] at h
    simpa using h.symm

lemma acct_err_cases (p : Provider) (st : ServiceState) (m : String)
    (h : (handleGetAccountDetailsRequest p st).result = Except.error m) :
    m = INTERNAL := by
  unfold handleGetAccountDetailsRequest at h
  cases hg : p.getAccountDetails with
  | ok d => simp [hg] at h
  | error e =>
    simp only [hg] at h
    simpa using h.symm

lemma bal_err_cases (p : Provider) (st : ServiceState) (m : String)
    (h : (handleGetBalanceRequest p st).result = Except.error m) :
    m = INTERNAL := by
  unfold handleGetBalanceRequest at h
  cases hg : p.getBalance with
  | ok d => simp [hg] at h
  | error e =>
    simp only [hg] at h
    simpa using h.symm

lemma tx_err_cases (p : Provider) (st : ServiceState) (c : NwcRequestContent) (m : String)
    (h : (handleGetTransactionsRequest p st c).result = Except.error m) :
    m = INVALID_PARAMS ∨ m = INTERNAL := by
  unfold handleGetTransactionsRequest at h
  by_cases hv : jsOr (c.params.bind Params.limit) 10 < 1 ∨
      jsOr (c.params.bind Params.limit) 10 > 100 ∨ jsOr (c.params.bind Params.offset) 0 < 0
  · simp only [if_pos hv] at h
    left
    simpa using h.symm
  · simp only [if_neg hv] at h
    cases hg : p.getTransactions (jsOr (c.params.bind Params.limit) 10)
        (jsOr (c.params.bind Params.offset) 0) with
    | ok d => simp [hg] at h
    | error e =>
      simp only [hg] at h
      right
      simpa using h.symm

/-- C4 (amended): the error code that reaches the Response Builder is always
one of the seven taxonomy codes, except when a raw exception escapes ahead of
the classifying try/catch of a handler: the TypeError from destructuring
absent params in make_invoice or lookup_invoice, or the raw message of a
bolt11 decoding failure in pay_invoice, whose text becomes the published
error code (the builder then falls back to its generic message). -/
theorem C4_error_code_taxonomy (cfg : Config) (p : Provider) (b : Bolt11) (cr : Crypto)
    (st : ServiceState) (event : NostrEvent) :
    (tryPhase cfg p b cr st event).errorCode = none ∨
    ∃ code, (tryPhase cfg p b cr st event).errorCode = some code ∧
      (code ∈ errorTaxonomy ∨ code = destructureAmountMsg ∨
       code = destructureInvoiceMsg ∨ ∃ s, b.amountSats s = Except.error code) := by
  have hU : UNAUTHORIZED ∈ errorTaxonomy := by simp [errorTaxonomy]
  have hN : NOT_IMPLEMENTED ∈ errorTaxonomy := by simp [errorTaxonomy]
  have hQ : QUOTA_EXCEEDED ∈ errorTaxonomy := by simp [errorTaxonomy]
  have hP : PAYMENT_FAILED ∈ errorTaxonomy := by simp [errorTaxonomy]
  have hI : INTERNAL ∈ errorTaxonomy := by simp [errorTaxonomy]
  have hF : NOT_FOUND ∈ errorTaxonomy := by simp [errorTaxonomy]
  have hV : INVALID_PARAMS ∈ errorTaxonomy := by simp [errorTaxonomy]
  unfold tryPhase
  cases hdec : cr.decrypt event.content with
  | none => exact Or.inr ⟨UNAUTHORIZED, rfl, Or.inl hU⟩
  | some content =>
    by_cases hpk : event.pubkey = cfg.NWC_CONNECTION_PUBKEY
    · simp only [if_pos hpk]
      cases hm : content.method with
      | undef => exact Or.inr ⟨NOT_IMPLEMENTED, rfl, Or.inl hN⟩
      | null => exact Or.inr ⟨NOT_IMPLEMENTED, rfl, Or.inl hN⟩
      | str s =>
        by_cases h1 : s = "pay_invoice"
        · simp only [if_pos h1]
          cases hr : (handlePayInvoiceRequest cfg p b st content).result with
          | ok v => exact Or.inl (runHandler_errorCode_ok _ _ v hr)
          | error m =>
            refine Or.inr ⟨m, runHandler_errorCode_err _ _ m hr, ?_⟩
            rcases pay_err_cases cfg p b st content m hr with h | h | h
            · exact Or.inl (h ▸ hQ)
            · exact Or.inl (h ▸ hP)
            · exact Or.inr (Or.inr (Or.inr h))
        · simp only [if_neg h1]
          by_cases h2 : s = "make_invoice"
          · simp only [if_pos h2]
            cases hr : (handleMakeInvoiceRequest p st content).result with
            | ok v => exact Or.inl (runHandler_errorCode_ok _ _ v hr)
            | error m =>
              refine Or.inr ⟨m, runHandler_errorCode_err _ _ m hr, ?_⟩
              rcases make_err_cases p st content m hr with h | h
              · exact Or.inr (Or.inl h)
              · exact Or.inl (h ▸ hI)
          · simp only [if_neg h2]
            by_cases h3 : s = "lookup_invoice"
            · simp only [if_pos h3]
              cases hr : (handleLookupInvoiceRequest p st content).result with
              | ok v => exact Or.inl (runHandler_errorCode_ok _ _ v hr)
              | error m =>
                refine Or.inr ⟨m, runHandler_errorCode_err _ _ m hr, ?_⟩
                rcases lookup_err_cases p st content m hr with h | h | h
                · exact Or.inr (Or.inr (Or.inl h))
                · exact Or.inl (h ▸ hF)
                · exact Or.inl (h ▸ hI)
            · simp only [if_neg h3]
              by_cases h4 : s = "get_exchange_rates"
              · simp only [if_pos h4]
                cases hr : (handleGetExchangeRatesRequest p st content).result with
                | ok v => exact Or.inl (runHandler_errorCode_ok _ _ v hr)
                | error m =>
                  refine Or.inr ⟨m, runHandler_errorCode_err _ _ m hr, ?_⟩
                  exact Or.inl ((rates_err_cases p st content m hr) ▸ hI)
              · simp only [if_neg h4]
                by_cases h5 : s = "get_account_details"
                · simp only [if_pos h5]
                  cases hr : (handleGetAccountDetailsRequest p st).result with
                  | ok v => exact Or.inl (runHandler_errorCode_ok _ _ v hr)
                  | error m =>
                    refine Or.inr ⟨m, runHandler_errorCode_err _ _ m hr, ?_⟩
                    exact Or.inl ((acct_err_cases p st m hr) ▸ hI)
                · simp only [if_neg h5]
                  by_cases h6 : s = "get_balance"
                  · simp only [if_pos h6]
                    cases hr : (handleGetBalanceRequest p st).result with
                    | ok v => exact Or.inl (runHandler_errorCode_ok _ _ v hr)
                    | error m =>
                      refine Or.inr ⟨m, runHandler_errorCode_err _ _ m hr, ?_⟩
                      exact Or.inl ((bal_err_cases p st m hr) ▸ hI)
                  · simp only [if_neg h6]
                    by_cases h7 : s = "get_transactions"
                    · simp only [if_pos h7]
                      cases hr : (handleGetTransactionsRequest p st content).result with
                      | ok v => exact Or.inl (runHandler_errorCode_ok _ _ v hr)
                      | error m =>
                        refine Or.inr ⟨m, runHandler_errorCode_err _ _ m hr, ?_⟩
                        rcases tx_err_cases p st content m hr with h | h
                        · exact Or.inl (h ▸ hV)
                        · exact Or.inl (h ▸ hI)
                    · simp only [if_neg h7]
                      exact Or.inr ⟨NOT_IMPLEMENTED, rfl, Or.inl hN⟩
    · simp only [if_neg hpk]
      exact Or.inr ⟨UNAUTHORIZED, rfl, Or.inl hU⟩

/-- Fixture crypto layer decrypting every ciphertext to a make_invoice
request with absent params. -/
def crMakeNoParams : Crypto :=
  ⟨fun _ => some ⟨JStr.str "make_invoice", none⟩, fun _ => some "ct"⟩

/-- Counterexample to C4 as stated: a make_invoice request with absent params
throws a raw TypeError while destructuring, outside the classifying
try/catch, and its raw message reaches the Response Builder as the error
code, which is not one of the seven taxonomy codes. -/
theorem C4_counterexample_raw_typeerror_escapes :
    (tryPhase cfg0 pOk b60 crMakeNoParams st50 evConn).errorCode
      = some destructureAmountMsg ∧
    destructureAmountMsg ∉ errorTaxonomy := by
  refine ⟨rfl, ?_⟩
  decide

lemma runPayList_total (cfg : Config) (p : Provider) (b : Bolt11) :
    ∀ (reqs : List NwcRequestContent) (st : ServiceState),
      allPaysOk cfg p b st reqs = true →
      (runPayList cfg p b st reqs).totalAmountSentInSats
        = st.totalAmountSentInSats + (reqs.map (derivedAmount b)).sum := by
  intro reqs
  induction reqs with
  | nil =>
    intro st _
    simp [runPayList]
  | cons c rest ih =>
    intro st hok
    unfold allPaysOk at hok
    cases hr : (handlePayInvoiceRequest cfg p b st c).result with
    | error m =>
      rw [hr] at hok
      cases hok
    | ok v =>
      rw [hr] at hok
      unfold runPayList
      rw [ih _ hok, pay_ok_total cfg p b st c v hr]
      simp only [List.map_cons, List.sum_cons]
      ring

/-- C7: starting from a zero total, a sequence of successful pay_invoice
actions leaves `totalAmountSentInSats` equal to the exact sum of the derived
amounts, and a further pay_invoice whose derived amount is
ceiling - total + 1 is rejected with QUOTA_EXCEEDED, without a provider
call and without touching the state. -/
theorem C7_sequential_quota_sum (cfg : Config) (p : Provider) (b : Bolt11)
    (st0 : ServiceState) (reqs : List NwcRequestContent) (cNext : NwcRequestContent)
    (h0 : st0.totalAmountSentInSats = 0)
    (hok : allPaysOk cfg p b st0 reqs = true)
    (hnext : deriveAmount b (cNext.params.bind Params.invoice)
      = Except.ok (cfg.TOTAL_MAX_SEND_AMOUNT_IN_SATS
          - (runPayList cfg p b st0 reqs).totalAmountSentInSats + 1)) :
    (runPayList cfg p b st0 reqs).totalAmountSentInSats
      = (reqs.map (derivedAmount b)).sum ∧
    (handlePayInvoiceRequest cfg p b (runPayList cfg p b st0 reqs) cNext).result
      = Except.error QUOTA_EXCEEDED ∧
    (handlePayInvoiceRequest cfg p b (runPayList cfg p b st0 reqs) cNext).calls = [] ∧
    (handlePayInvoiceRequest cfg p b (runPayList cfg p b st0 reqs) cNext).state
      = runPayList cfg p b st0 reqs := by
  have hsum := runPayList_total cfg p b reqs st0 hok
  rw [h0, zero_add] at hsum
  have hq : (runPayList cfg p b st0 reqs).totalAmountSentInSats +
      (cfg.TOTAL_MAX_SEND_AMOUNT_IN_SATS
        - (runPayList cfg p b st0 reqs).totalAmountSentInSats + 1)
      > cfg.TOTAL_MAX_SEND_AMOUNT_IN_SATS := by
    have he : (runPayList cfg p b st0 reqs).totalAmountSentInSats +
        (cfg.TOTAL_MAX_SEND_AMOUNT_IN_SATS
          - (runPayList cfg p b st0 reqs).totalAmountSentInSats + 1)
        = cfg.TOTAL_MAX_SEND_AMOUNT_IN_SATS + 1 := by ring
    rw [he]
    linarith
  refine ⟨hsum, ?_⟩
  unfold handlePayInvoiceRequest
  simp only [hnext, if_pos hq]
  simp

lemma pay_ok_spec (cfg : Config) (p : Provider) (b : Bolt11) (st : ServiceState)
    (c : NwcRequestContent) (inv : String) (a : ℚ)
    (hinv : c.params.bind Params.invoice = some inv)
    (hne : inv ≠ "")
    (hamt : b.amountSats inv = Except.ok a)
    (hq : ¬(st.totalAmountSentInSats + a > cfg.TOTAL_MAX_SEND_AMOUNT_IN_SATS))
    (hp : p.payInvoice (some inv) = Except.ok ()) :
    handlePayInvoiceRequest cfg p b st c =
      ⟨Except.ok (ResultPayload.payInvoiceResult "gfy"),
       { st with totalAmountSentInSats := st.totalAmountSentInSats + a },
       [ProviderCall.payInvoice (some inv)]⟩ := by
  have hd : deriveAmount b (some inv) = Except.ok a := by
    unfold deriveAmount
    simp [strTruthy, hne, hamt]
  unfold handlePayInvoiceRequest
  simp only [hinv, hd, if_neg hq, hp]

/-- Fixture bolt11 oracle for the C7 witness: invoice "a" carries 30 sats,
invoice "b" carries 50 sats, every other invoice carries 21 sats. -/
def b7 : Bolt11 :=
  ⟨fun s => if s = "a" then Except.ok 30 else if s = "b" then Except.ok 50 else Except.ok 21⟩

/-- First fixture pay_invoice request of the C7 witness. -/
def r7a : NwcRequestContent := ⟨JStr.str "pay_invoice", some { invoice := some "a" }⟩

/-- Second fixture pay_invoice request of the C7 witness. -/
def r7b : NwcRequestContent := ⟨JStr.str "pay_invoice", some { invoice := some "b" }⟩

/-- Fixture request list for the C7 witness: pay invoice "a" then invoice "b". -/
def reqs7 : List NwcRequestContent := [r7a, r7b]

/-- Fixture follow-up pay_invoice request for the C7 witness. -/
def cNext7 : NwcRequestContent := ⟨JStr.str "pay_invoice", some { invoice := some "cc" }⟩

/-- Witness for C7 at a concrete input: amounts 30 and 50 against ceiling
100, then a request deriving 21 = 100 - 80 + 1. -/
theorem C7_sequential_quota_sum_witness :
    (runPayList cfg0 pOk b7 stZero reqs7).totalAmountSentInSats
      = (reqs7.map (derivedAmount b7)).sum ∧
    (handlePayInvoiceRequest cfg0 pOk b7 (runPayList cfg0 pOk b7 stZero reqs7) cNext7).result
      = Except.error QUOTA_EXCEEDED ∧
    (handlePayInvoiceRequest cfg0 pOk b7 (runPayList cfg0 pOk b7 stZero reqs7) cNext7).calls
      = [] ∧
    (handlePayInvoiceRequest cfg0 pOk b7 (runPayList cfg0 pOk b7 stZero reqs7) cNext7).state
      = runPayList cfg0 pOk b7 stZero reqs7 :=
  by
  have e1 : handlePayInvoiceRequest cfg0 pOk b7 stZero r7a =
      ⟨Except.ok (ResultPayload.payInvoiceResult "gfy"),
       { stZero with totalAmountSentInSats := stZero.totalAmountSentInSats + 30 },
       [ProviderCall.payInvoice (some "a")]⟩ :=
    pay_ok_spec cfg0 pOk b7 stZero r7a "a" 30 rfl (by decide) rfl
      (by norm_num [stZero, cfg0]) rfl
  have e2 : handlePayInvoiceRequest cfg0 pOk b7
      { stZero with totalAmountSentInSats := stZero.totalAmountSentInSats + 30 } r7b =
      ⟨Except.ok (ResultPayload.payInvoiceResult "gfy"),
       { stZero with totalAmountSentInSats := stZero.totalAmountSentInSats + 30 + 50 },
       [ProviderCall.payInvoice (some "b")]⟩ :=
    pay_ok_spec cfg0 pOk b7
      { stZero with totalAmountSentInSats := stZero.totalAmountSentInSats + 30 } r7b "b" 50
      rfl (by decide) rfl (by norm_num [stZero, cfg0]) rfl
  have hok : allPaysOk cfg0 pOk b7 stZero reqs7 = true := by
    unfold reqs7
    unfold allPaysOk
    rw [e1]
    unfold allPaysOk
    rw [e2]
    rfl
  have hrun : runPayList cfg0 pOk b7 stZero reqs7 =
      { stZero with totalAmountSentInSats := stZero.totalAmountSentInSats + 30 + 50 } := by
    unfold reqs7
    unfold runPayList
    rw [e1]
    unfold runPayList
    rw [e2]
    rfl
  have hnext : deriveAmount b7 (cNext7.params.bind Params.invoice)
      = Except.ok (cfg0.TOTAL_MAX_SEND_AMOUNT_IN_SATS
          - (runPayList cfg0 pOk b7 stZero reqs7).totalAmountSentInSats + 1) := by
    rw [hrun]
    show Except.ok (21 : ℚ) = _
    norm_num [stZero, cfg0]
  exact C7_sequential_quota_sum cfg0 pOk b7 stZero reqs7 cNext7 rfl hok hnext

lemma make_state_total (p : Provider) (st : ServiceState) (c : NwcRequestContent) :
    (handleMakeInvoiceRequest p st c).state.totalAmountSentInSats
      = st.totalAmountSentInSats := by
  unfold handleMakeInvoiceRequest
  cases hp : c.params with
  | none => rfl
  | some pr =>
    cases hm : p.makeInvoice pr.amount pr.description with
    | ok d => simp [hm]
    | error e => simp [hm]

lemma lookup_state_total (p : Provider) (st : ServiceState) (c : NwcRequestContent) :
    (handleLookupInvoiceRequest p st c).state.totalAmountSentInSats
      = st.totalAmountSentInSats := by
  unfold handleLookupInvoiceRequest
  cases hp : c.params with
  | none => rfl
  | some pr =>
    cases hg : cacheGet st.cachedInvoiceResults (jsKey pr.invoice) with
    | none => simp [hg]
    | some r =>
      cases hl : p.lookupInvoice r.metadata.invoice_id with
      | ok s2 => simp [hg, hl]
      | error e => simp [hg, hl]

lemma rates_state (p : Provider) (st : ServiceState) (c : NwcRequestContent) :
    (handleGetExchangeRatesRequest p st c).state = st := by
  unfold handleGetExchangeRatesRequest
  by_cases ht : strTruthy (c.params.bind Params.currency)
  · simp only [if_pos ht]
    cases hg : p.getExchangeRates ((c.params.bind Params.currency).getD "") with
    | ok d => rfl
    | error e => rfl
  · simp only [if_neg ht]

lemma acct_state (p : Provider) (st : ServiceState) :
    (handleGetAccountDetailsRequest p st).state = st := by
  unfold handleGetAccountDetailsRequest
  cases hg : p.getAccountDetails with
  | ok d => rfl
  | error e => rfl

lemma bal_state (p : Provider) (st : ServiceState) :
    (handleGetBalanceRequest p st).state = st := by
  unfold handleGetBalanceRequest
  cases hg : p.getBalance with
  | ok d => rfl
  | error e => rfl

lemma tx_state (p : Provider) (st : ServiceState) (c : NwcRequestContent) :
    (handleGetTransactionsRequest p st c).state = st := by
  unfold handleGetTransactionsRequest
  by_cases hv : jsOr (c.params.bind Params.limit) 10 < 1 ∨
      jsOr (c.params.bind Params.limit) 10 > 100 ∨ jsOr (c.params.bind Params.offset) 0 < 0
  · simp only [if_pos hv]
  · simp only [if_neg hv]
    cases hg : p.getTransactions (jsOr (c.params.bind Params.limit) 10)
        (jsOr (c.params.bind Params.offset) 0) with
    | ok d => rfl
    | error e => rfl

lemma pay_state_mono (cfg : Config) (p : Provider) (b : Bolt11) (st : ServiceState)
    (c : NwcRequestContent)
    (hb : ∀ s a, b.amountSats s = Except.ok a → 0 ≤ a) :
    st.totalAmountSentInSats
      ≤ (handlePayInvoiceRequest cfg p b st c).state.totalAmountSentInSats := by
  have ha : ∀ a, deriveAmount b (c.params.bind Params.invoice) = Except.ok a → 0 ≤ a := by
    intro a hd
    unfold deriveAmount at hd
    by_cases ht : strTruthy (c.params.bind Params.invoice)
    · rw [if_pos ht] at hd
      exact hb _ a hd
    · rw [if_neg ht] at hd
      cases hd
      exact le_refl 0
  unfold handlePayInvoiceRequest
  cases hd : deriveAmount b (c.params.bind Params.invoice) with
  | error m => exact le_refl _
  | ok a =>
    simp only [hd]
    by_cases hq : st.totalAmountSentInSats + a > cfg.TOTAL_MAX_SEND_AMOUNT_IN_SATS
    · simp only [if_pos hq]
      exact le_refl _
    · simp only [if_neg hq]
      cases hp : p.payInvoice (c.params.bind Params.invoice) with
      | ok u =>
        have h0 := ha a hd
        show st.totalAmountSentInSats ≤ st.totalAmountSentInSats + a
        linarith
      | error e => exact le_refl _

lemma pay_state_change (cfg : Config) (p : Provider) (b : Bolt11) (st : ServiceState)
    (c : NwcRequestContent)
    (hch : (handlePayInvoiceRequest cfg p b st c).state.totalAmountSentInSats
      ≠ st.totalAmountSentInSats) :
    (handlePayInvoiceRequest cfg p b st c).result
      = Except.ok (ResultPayload.payInvoiceResult "gfy") ∧
    p.payInvoice (c.params.bind Params.invoice) = Except.ok () ∧
    ∃ a, deriveAmount b (c.params.bind Params.invoice) = Except.ok a ∧
      (handlePayInvoiceRequest cfg p b st c).state.totalAmountSentInSats
        = st.totalAmountSentInSats + a := by
  unfold handlePayInvoiceRequest at hch ⊢
  cases hd : deriveAmount b (c.params.bind Params.invoice) with
  | error m =>
    rw [hd] at hch
    exact absurd rfl hch
  | ok a =>
    simp only [hd] at hch ⊢
    by_cases hq : st.totalAmountSentInSats + a > cfg.TOTAL_MAX_SEND_AMOUNT_IN_SATS
    · simp only [if_pos hq] at hch
      exact absurd rfl hch
    · simp only [if_neg hq] at hch ⊢
      cases hp : p.payInvoice (c.params.bind Params.invoice) with
      | ok u =>
        cases u
        exact ⟨rfl, rfl, a, rfl, rfl⟩
      | error e =>
        rw [hp] at hch
        exact absurd rfl hch

lemma runHandler_result_ok (o : HandlerOutput) (c : NwcRequestContent)
    (v : ResultPayload) (h : o.result = Except.ok v) :
    (runHandler o c).result = some v := by
  unfold runHandler
  rw [h]

lemma handleNwc_state (cfg : Config) (p : Provider) (b : Bolt11) (cr : Crypto)
    (now : ℤ) (st : ServiceState) (event : NostrEvent) :
    (handleNwcRequest cfg p b cr now st event).state
      = (tryPhase cfg p b cr st event).state := by
  unfold handleNwcRequest makeNwcResponseEvent
  cases hs : cr.encryptSign
      (nwcResponseContent cfg (jsMethodString (tryPhase cfg p b cr st event).content)
        (tryPhase cfg p b cr st event).result
        (tryPhase cfg p b cr st event).errorCode) with
  | none => simp [hs]
  | some ct => simp [hs]

lemma tryPhase_total_invariant (cfg : Config) (p : Provider) (b : Bolt11) (cr : Crypto)
    (st : ServiceState) (event : NostrEvent)
    (hb : ∀ s a, b.amountSats s = Except.ok a → 0 ≤ a) :
    st.totalAmountSentInSats ≤ (tryPhase cfg p b cr st event).state.totalAmountSentInSats ∧
    ((tryPhase cfg p b cr st event).state.totalAmountSentInSats
        ≠ st.totalAmountSentInSats →
      ∃ c, cr.decrypt event.content = some c ∧
        event.pubkey = cfg.NWC_CONNECTION_PUBKEY ∧
        c.method = JStr.str "pay_invoice" ∧
        (tryPhase cfg p b cr st event).result
          = some (ResultPayload.payInvoiceResult "gfy") ∧
        p.payInvoice (c.params.bind Params.invoice) = Except.ok () ∧
        ∃ a, deriveAmount b (c.params.bind Params.invoice) = Except.ok a ∧
          (tryPhase cfg p b cr st event).state.totalAmountSentInSats
            = st.totalAmountSentInSats + a) ∧
    ((tryPhase cfg p b cr st event).errorCode ≠ none →
      (tryPhase cfg p b cr st event).state.totalAmountSentInSats
        = st.totalAmountSentInSats) := by
  unfold tryPhase
  cases hdec : cr.decrypt event.content with
  | none => exact ⟨le_refl _, fun hne => absurd rfl hne, fun _ => rfl⟩
  | some content =>
    by_cases hpk : event.pubkey = cfg.NWC_CONNECTION_PUBKEY
    · simp only [if_pos hpk]
      cases hm : content.method with
      | undef => exact ⟨le_refl _, fun hne => absurd rfl hne, fun _ => rfl⟩
      | null => exact ⟨le_refl _, fun hne => absurd rfl hne, fun _ => rfl⟩
      | str s =>
        by_cases h1 : s = "pay_invoice"
        · simp only [if_pos h1]
          refine ⟨?_, ?_, ?_⟩
          · rw [runHandler_state]
            exact pay_state_mono cfg p b st content hb
          · intro hne
            rw [runHandler_state] at hne
            obtain ⟨hres, hpay, a, hda, htot⟩ := pay_state_change cfg p b st content hne
            exact ⟨content, rfl, hpk, by rw [hm, h1],
                   runHandler_result_ok _ _ _ hres, hpay, a, hda,
                   by rw [runHandler_state]; exact htot⟩
          · intro hec
            cases hr : (handlePayInvoiceRequest cfg p b st content).result with
            | ok v => exact absurd (runHandler_errorCode_ok _ content v hr) hec
            | error m =>
              rw [runHandler_state]
              rw [pay_err_state cfg p b st content m hr]
        · simp only [if_neg h1]
          by_cases h2 : s = "make_invoice"
          · simp only [if_pos h2]
            have hto : (runHandler (handleMakeInvoiceRequest p st content)
                content).state.totalAmountSentInSats = st.totalAmountSentInSats := by
              rw [runHandler_state]
              exact make_state_total p st content
            exact ⟨le_of_eq hto.symm, fun hne => absurd hto hne, fun _ => hto⟩
          · simp only [if_neg h2]
            by_cases h3 : s = "lookup_invoice"
            · simp only [if_pos h3]
              have hto : (runHandler (handleLookupInvoiceRequest p st content)
                  content).state.totalAmountSentInSats = st.totalAmountSentInSats := by
                rw [runHandler_state]
                exact lookup_state_total p st content
              exact ⟨le_of_eq hto.symm, fun hne => absurd hto hne, fun _ => hto⟩
            · simp only [if_neg h3]
              by_cases h4 : s = "get_exchange_rates"
              · simp only [if_pos h4]
                have hto : (runHandler (handleGetExchangeRatesRequest p st content)
                    content).state.totalAmountSentInSats = st.totalAmountSentInSats := by
                  rw [runHandler_state, rates_state]
                exact ⟨le_of_eq hto.symm, fun hne => absurd hto hne, fun _ => hto⟩
              · simp only [if_neg h4]
                by_cases h5 : s = "get_account_details"
                · simp only [if_pos h5]
                  have hto : (runHandler (handleGetAccountDetailsRequest p st)
                      content).state.totalAmountSentInSats = st.totalAmountSentInSats := by
                    rw [runHandler_state, acct_state]
                  exact ⟨le_of_eq hto.symm, fun hne => absurd hto hne, fun _ => hto⟩
                · simp only [if_neg h5]
                  by_cases h6 : s = "get_balance"
                  · simp only [if_pos h6]
                    have hto : (runHandler (handleGetBalanceRequest p st)
                        content).state.totalAmountSentInSats = st.totalAmountSentInSats := by
                      rw [runHandler_state, bal_state]
                    exact ⟨le_of_eq hto.symm, fun hne => absurd hto hne, fun _ => hto⟩
                  · simp only [if_neg h6]
                    by_cases h7 : s = "get_transactions"
                    · simp only [if_pos h7]
                      have hto : (runHandler (handleGetTransactionsRequest p st content)
                          content).state.totalAmountSentInSats = st.totalAmountSentInSats := by
                        rw [runHandler_state, tx_state]
                      exact ⟨le_of_eq hto.symm, fun hne => absurd hto hne, fun _ => hto⟩
                    · simp only [if_neg h7]
                      simp
    · simp only [if_neg hpk]
      simp

/-- C8: across the processing of any inbound event, totalAmountSentInSats
never decreases (so it stays non-negative once non-negative); when it
changes, the event was a decrypted, authorized pay_invoice request whose
provider payment call succeeded, the handler returned the success payload,
and the total grew by exactly the derived amount; and on any failed action
(any error outcome) the total is unchanged. -/
theorem C8_total_sent_monotone (cfg : Config) (p : Provider) (b : Bolt11) (cr : Crypto)
    (now : ℤ) (st : ServiceState) (event : NostrEvent)
    (hb : ∀ s a, b.amountSats s = Except.ok a → 0 ≤ a) :
    st.totalAmountSentInSats
      ≤ (handleNwcRequest cfg p b cr now st event).state.totalAmountSentInSats ∧
    (0 ≤ st.totalAmountSentInSats →
      0 ≤ (handleNwcRequest cfg p b cr now st event).state.totalAmountSentInSats) ∧
    ((handleNwcRequest cfg p b cr now st event).state.totalAmountSentInSats
        ≠ st.totalAmountSentInSats →
      ∃ c, cr.decrypt event.content = some c ∧
        event.pubkey = cfg.NWC_CONNECTION_PUBKEY ∧
        c.method = JStr.str "pay_invoice" ∧
        (tryPhase cfg p b cr st event).result
          = some (ResultPayload.payInvoiceResult "gfy") ∧
        p.payInvoice (c.params.bind Params.invoice) = Except.ok () ∧
        ∃ a, deriveAmount b (c.params.bind Params.invoice) = Except.ok a ∧
          (handleNwcRequest cfg p b cr now st event).state.totalAmountSentInSats
            = st.totalAmountSentInSats + a) ∧
    ((tryPhase cfg p b cr st event).errorCode ≠ none →
      (handleNwcRequest cfg p b cr now st event).state.totalAmountSentInSats
        = st.totalAmountSentInSats) := by
  have hst := handleNwc_state cfg p b cr now st event
  have hinv := tryPhase_total_invariant cfg p b cr st event hb
  rw [hst]
  exact ⟨hinv.1, fun h0 => le_trans h0 hinv.1, hinv.2.1, hinv.2.2⟩

/-- Witness for C8 at a concrete input: an authorized pay_invoice event,
amount 60 under ceiling 100, succeeding provider. -/
theorem C8_total_sent_monotone_witness :
    st50.totalAmountSentInSats
      ≤ (handleNwcRequest cfg0 pOk b60 crPay 0 st50 evConn).state.totalAmountSentInSats ∧
    (0 ≤ st50.totalAmountSentInSats →
      0 ≤ (handleNwcRequest cfg0 pOk b60 crPay 0 st50 evConn).state.totalAmountSentInSats) ∧
    ((handleNwcRequest cfg0 pOk b60 crPay 0 st50 evConn).state.totalAmountSentInSats
        ≠ st50.totalAmountSentInSats →
      ∃ c, crPay.decrypt evConn.content = some c ∧
        evConn.pubkey = cfg0.NWC_CONNECTION_PUBKEY ∧
        c.method = JStr.str "pay_invoice" ∧
        (tryPhase cfg0 pOk b60 crPay st50 evConn).result
          = some (ResultPayload.payInvoiceResult "gfy") ∧
        pOk.payInvoice (c.params.bind Params.invoice) = Except.ok () ∧
        ∃ a, deriveAmount b60 (c.params.bind Params.invoice) = Except.ok a ∧
          (handleNwcRequest cfg0 pOk b60 crPay 0 st50 evConn).state.totalAmountSentInSats
            = st50.totalAmountSentInSats + a) ∧
    ((tryPhase cfg0 pOk b60 crPay st50 evConn).errorCode ≠ none →
      (handleNwcRequest cfg0 pOk b60 crPay 0 st50 evConn).state.totalAmountSentInSats
        = st50.totalAmountSentInSats) :=
  C8_total_sent_monotone cfg0 pOk b60 crPay 0 st50 evConn
    (by
      intro s a h
      injection h with h2
      rw [← h2]
      norm_num)
